import Mathlib

/-
Verification of the BlenderMCP command protocol.

Shallow embedding of the two source files:
  * `addon.py`  — the host-side polling server (`BlenderMCPServer`):
    `_process_server`, `execute_command`, `_execute_command_internal`.
  * `blender_mcp_server.py` — the client-side connection manager
    (`BlenderConnection`): `receive_full_response`, `send_command`.

Conventions of the embedding:
  * JSON numbers are modelled as integers (no claim under scrutiny involves
    floating point values).
  * `json.loads` (Python stdlib) is modelled concretely by `pyLoads`:
    a UTF-8 decoder followed by a recursive-descent JSON parser.  The two
    error classes that the source distinguishes — `json.JSONDecodeError`
    (incomplete / malformed JSON text) and `UnicodeDecodeError` (the byte
    buffer is not valid UTF-8, raised by `.decode('utf-8')` and *not*
    caught by `except json.JSONDecodeError`) — are kept apart in
    `LoadResult`.
  * Sockets are modelled by event scripts: each tool call (`accept`,
    `recv`, `sendall`) receives its outcome from an explicit event value.
  * Handlers are external named operations (the spec's Handler Registry):
    `params ↦ (Except message value, new host state)`; a handler returns
    its mutated host state whether or not it raises.
-/

namespace BlenderMCP

/-- JSON values as produced by `json.loads` (numbers restricted to
integers; see the file header). -/
inductive JsonVal : Type where
  | null : JsonVal
  | bool (b : Bool) : JsonVal
  | num (n : Int) : JsonVal
  | str (s : String) : JsonVal
  | arr (xs : List JsonVal) : JsonVal
  | obj (kvs : List (String × JsonVal)) : JsonVal

/-! ## UTF-8 decoding (`bytes.decode('utf-8')`) -/

/-- Is `b` a UTF-8 continuation byte? -/
def utf8Cont (b : Nat) : Bool := 0x80 ≤ b && b ≤ 0xBF

/-- Lower bound of the first continuation byte of a 3-byte sequence
(restriction that excludes overlong encodings). -/
def utf8Lo3 (b : Nat) : Nat := if b = 0xE0 then 0xA0 else 0x80

/-- Upper bound of the first continuation byte of a 3-byte sequence
(restriction that excludes UTF-16 surrogates). -/
def utf8Hi3 (b : Nat) : Nat := if b = 0xED then 0x9F else 0xBF

/-- Lower bound of the first continuation byte of a 4-byte sequence. -/
def utf8Lo4 (b : Nat) : Nat := if b = 0xF0 then 0x90 else 0x80

/-- Upper bound of the first continuation byte of a 4-byte sequence. -/
def utf8Hi4 (b : Nat) : Nat := if b = 0xF4 then 0x8F else 0xBF

/-- Strict UTF-8 decoding, modelling Python's `bytes.decode('utf-8')`:
`none` corresponds to `UnicodeDecodeError` (in particular on a buffer cut
in the middle of a multi-byte character).  The fuel only bounds the
recursion depth (each step consumes at least one byte, so
`utf8Decode` below always supplies enough). -/
def utf8DecodeAux : Nat → List Nat → Option (List Char)
  | _, [] => some []
  | 0, _ :: _ => none
  | fuel + 1, b :: rest =>
    if b < 0x80 then
      (utf8DecodeAux fuel rest).map (fun cs => Char.ofNat b :: cs)
    else if 0xC2 ≤ b && b ≤ 0xDF then
      match rest with
      | b2 :: rest2 =>
        if utf8Cont b2 then
          (utf8DecodeAux fuel rest2).map
            (fun cs => Char.ofNat ((b - 0xC0) * 0x40 + (b2 - 0x80)) :: cs)
        else none
      | [] => none
    else if 0xE0 ≤ b && b ≤ 0xEF then
      match rest with
      | b2 :: b3 :: rest2 =>
        if (utf8Lo3 b ≤ b2 && b2 ≤ utf8Hi3 b) && utf8Cont b3 then
          (utf8DecodeAux fuel rest2).map
            (fun cs =>
              Char.ofNat ((b - 0xE0) * 0x1000 + (b2 - 0x80) * 0x40 + (b3 - 0x80)) :: cs)
        else none
      | _ => none
    else if 0xF0 ≤ b && b ≤ 0xF4 then
      match rest with
      | b2 :: b3 :: b4 :: rest2 =>
        if ((utf8Lo4 b ≤ b2 && b2 ≤ utf8Hi4 b) && utf8Cont b3) && utf8Cont b4 then
          (utf8DecodeAux fuel rest2).map
            (fun cs =>
              Char.ofNat ((b - 0xF0) * 0x40000 + (b2 - 0x80) * 0x1000
                            + (b3 - 0x80) * 0x40 + (b4 - 0x80)) :: cs)
        else none
      | _ => none
    else none

/-- `bytes.decode('utf-8')`. -/
def utf8Decode (bs : List Nat) : Option (List Char) :=
  utf8DecodeAux bs.length bs

/-! ## JSON parsing (`json.loads` on the decoded text) -/

/-- JSON whitespace characters recognised by Python's `json` module. -/
def isJsonWs (c : Char) : Bool := c = ' ' || c = '\t' || c = '\n' || c = '\r'

/-- Drop leading JSON whitespace. -/
def skipWs : List Char → List Char
  | [] => []
  | c :: rest => if isJsonWs c then skipWs rest else c :: rest

/-- Hexadecimal digit value, for `\uXXXX` escapes (code points 0–9,
a–f, A–F). -/
def hexVal (c : Char) : Option Nat :=
  let n := c.toNat
  if 48 ≤ n ∧ n ≤ 57 then some (n - 48)
  else if 97 ≤ n ∧ n ≤ 102 then some (n - 87)
  else if 65 ≤ n ∧ n ≤ 70 then some (n - 55)
  else none

/-- Parse the body of a JSON string (opening quote already consumed).
Escapes `\" \\ \/ \b \f \n \r \t \uXXXX` are recognised; a UTF-16
surrogate pair of `\u` escapes is combined into one code point; raw
control characters below `0x20` are rejected (Python's `strict=True`). -/
def parseStrAux : Nat → List Char → String → Option (String × List Char)
  | 0, _, _ => none
  | fuel + 1, cs, out =>
    match cs with
    | [] => none
    | '"' :: rest => some (out, rest)
    | '\\' :: esc :: rest =>
      match esc with
      | '"' => parseStrAux fuel rest (out.push '"')
      | '\\' => parseStrAux fuel rest (out.push '\\')
      | '/' => parseStrAux fuel rest (out.push '/')
      | 'b' => parseStrAux fuel rest (out.push (Char.ofNat 8))
      | 'f' => parseStrAux fuel rest (out.push (Char.ofNat 12))
      | 'n' => parseStrAux fuel rest (out.push (Char.ofNat 10))
      | 'r' => parseStrAux fuel rest (out.push (Char.ofNat 13))
      | 't' => parseStrAux fuel rest (out.push (Char.ofNat 9))
      | 'u' =>
        match rest with
        | h1 :: h2 :: h3 :: h4 :: rest2 =>
          match hexVal h1, hexVal h2, hexVal h3, hexVal h4 with
          | some v1, some v2, some v3, some v4 =>
            let code := ((v1 * 16 + v2) * 16 + v3) * 16 + v4
            if 0xD800 ≤ code && code ≤ 0xDBFF then
              -- high surrogate: look for a following low-surrogate escape
              match rest2 with
              | '\\' :: 'u' :: g1 :: g2 :: g3 :: g4 :: rest3 =>
                match hexVal g1, hexVal g2, hexVal g3, hexVal g4 with
                | some w1, some w2, some w3, some w4 =>
                  let lo := ((w1 * 16 + w2) * 16 + w3) * 16 + w4
                  if 0xDC00 ≤ lo && lo ≤ 0xDFFF then
                    parseStrAux fuel rest3
                      (out.push (Char.ofNat (0x10000 + (code - 0xD800) * 0x400 + (lo - 0xDC00))))
                  else
                    -- lone surrogate followed by an ordinary escape
                    parseStrAux fuel ('\\' :: 'u' :: g1 :: g2 :: g3 :: g4 :: rest3)
                      (out.push (Char.ofNat code))
                | _, _, _, _ => parseStrAux fuel rest2 (out.push (Char.ofNat code))
              | _ => parseStrAux fuel rest2 (out.push (Char.ofNat code))
            else
              parseStrAux fuel rest2 (out.push (Char.ofNat code))
          | _, _, _, _ => none
        | _ => none
      | _ => none
    | c :: rest =>
      if c.toNat < 0x20 then none else parseStrAux fuel rest (out.push c)

/-- Parse a decimal digit run, returning the value and the remainder.
Mirrors Python's JSON number grammar for integers: a leading `0` stands
alone (so `01` stops after the `0`, as the stdlib scanner does). -/
def parseDigits : List Char → Option (Nat × List Char)
  | '0' :: rest => some (0, rest)
  | c :: rest =>
    if c.isDigit then
      let more := rest.takeWhile Char.isDigit
      let rest2 := rest.dropWhile Char.isDigit
      some ((c :: more).foldl (fun a d => a * 10 + (d.toNat - '0'.toNat)) 0, rest2)
    else none
  | [] => none

mutual

/-- Parse a JSON value (leading whitespace allowed).  `none` corresponds
to `json.JSONDecodeError`.  Fuel bounds the recursion depth; the top
level entry point supplies more fuel than any input can consume. -/
def parseVal : Nat → List Char → Option (JsonVal × List Char)
  | 0, _ => none
  | fuel + 1, s =>
    match skipWs s with
    | 'n' :: 'u' :: 'l' :: 'l' :: rest => some (.null, rest)
    | 't' :: 'r' :: 'u' :: 'e' :: rest => some (.bool true, rest)
    | 'f' :: 'a' :: 'l' :: 's' :: 'e' :: rest => some (.bool false, rest)
    | '"' :: rest =>
      match parseStrAux (rest.length + 1) rest "" with
      | some (str, rest2) => some (.str str, rest2)
      | none => none
    | '[' :: rest =>
      (match skipWs rest with
       | ']' :: rest2 => some (.arr [], rest2)
       | _ => parseElems fuel (skipWs rest) [])
    | '{' :: rest =>
      (match skipWs rest with
       | '}' :: rest2 => some (.obj [], rest2)
       | _ => parseMembers fuel (skipWs rest) [])
    | '-' :: rest =>
      (match parseDigits rest with
       | some (n, rest2) => some (.num (-(n : Int)), rest2)
       | none => none)
    | c :: rest =>
      if c.isDigit then
        match parseDigits (c :: rest) with
        | some (n, rest2) => some (.num (n : Int), rest2)
        | none => none
      else none
    | [] => none

/-- Parse the elements of a non-empty JSON array (after `[`), the
accumulator holding the elements parsed so far in reverse. -/
def parseElems : Nat → List Char → List JsonVal → Option (JsonVal × List Char)
  | 0, _, _ => none
  | fuel + 1, s, acc =>
    match parseVal fuel s with
    | some (v, rest) =>
      (match skipWs rest with
       | ',' :: rest2 => parseElems fuel (skipWs rest2) (v :: acc)
       | ']' :: rest2 => some (.arr (v :: acc).reverse, rest2)
       | _ => none)
    | none => none

/-- Parse the members of a non-empty JSON object (after `{`).  As in a
Python `dict` built by `json.loads`, a duplicate key keeps its original
position and takes the latest value. -/
def parseMembers : Nat → List Char → List (String × JsonVal) →
    Option (JsonVal × List Char)
  | 0, _, _ => none
  | fuel + 1, s, acc =>
    match s with
    | '"' :: rest =>
      (match parseStrAux (rest.length + 1) rest "" with
       | some (key, rest2) =>
         (match skipWs rest2 with
          | ':' :: rest3 =>
            (match parseVal fuel rest3 with
             | some (v, rest4) =>
               (match skipWs rest4 with
                | ',' :: rest5 => parseMembers fuel (skipWs rest5) (objInsert acc key v)
                | '}' :: rest5 => some (.obj (objInsert acc key v), rest5)
                | _ => none)
             | none => none)
          | _ => none)
       | none => none)
    | _ => none

/-- Insert (or update in place) a key in an association list, with the
`dict` semantics of `json.loads`: an existing key keeps its position and
receives the new value. -/
def objInsert : List (String × JsonVal) → String → JsonVal →
    List (String × JsonVal)
  | [], k, v => [(k, v)]
  | (k', v') :: rest, k, v =>
    if k' = k then (k', v) :: rest else (k', v') :: objInsert rest k v

end

/-- `json.loads` on decoded text: parse one value, then allow only
trailing whitespace (otherwise Python raises `Extra data`). -/
def jsonParse (s : List Char) : Option JsonVal :=
  match parseVal (2 * s.length + 2) s with
  | some (v, rest) => if skipWs rest = [] then some v else none
  | none => none

/-- Outcome of `json.loads(buffer.decode('utf-8'))` on a byte buffer.
`jsonError` is `json.JSONDecodeError`; `decodeError` is
`UnicodeDecodeError`, which the source's `except json.JSONDecodeError`
clauses do **not** catch. -/
inductive LoadResult : Type where
  | ok (v : JsonVal) : LoadResult
  | jsonError : LoadResult
  | decodeError : LoadResult

/-- `json.loads(bs.decode('utf-8'))`, distinguishing the two error
classes. -/
def pyLoads (bs : List Nat) : LoadResult :=
  match utf8Decode bs with
  | none => .decodeError
  | some cs =>
    match jsonParse cs with
    | some v => .ok v
    | none => .jsonError

/-! ## Python value formatting helpers -/

/-- Python's `str()` of a decoded JSON value, as interpolated by the
source's f-strings (`f"Unknown command type: {cmd_type}"`, and
`str(Exception(msg))`).  Container values are approximated by a
placeholder: no theorem below evaluates `pyStr` on them (an `arr`/`obj`
command type is unhashable, so dispatch raises before formatting it). -/
def pyStr : JsonVal → String
  | .null => "None"
  | .bool true => "True"
  | .bool false => "False"
  | .num n => toString n
  | .str s => s
  | .arr _ => "<list>"
  | .obj _ => "<dict>"

/-- Python's type name of a decoded JSON value, as it appears in
`AttributeError` / `TypeError` messages. -/
def pyTypeName : JsonVal → String
  | .null => "NoneType"
  | .bool _ => "bool"
  | .num _ => "int"
  | .str _ => "str"
  | .arr _ => "list"
  | .obj _ => "dict"

/-- First-match lookup in a string-keyed association list (the embedding
of a `dict` access; the lists built by `objInsert` have distinct keys, so
first match and last match agree). -/
def dictLookup : List (String × α) → String → Option α
  | [], _ => none
  | (k', v) :: rest, k => if k = k' then some v else dictLookup rest k

/-- `d.get(k, dflt)` on a decoded JSON object's key/value list: a missing
key yields the default, a key bound to JSON `null` yields `.null`. -/
def dGetD (kvs : List (String × JsonVal)) (k : String) (dflt : JsonVal) : JsonVal :=
  match dictLookup kvs k with
  | some v => v
  | none => dflt

/-- `d.get(k)` (default `None`). -/
def dGet (kvs : List (String × JsonVal)) (k : String) : JsonVal :=
  dGetD kvs k .null

/-! ## Command dispatch (`addon.py`: `execute_command`,
`_execute_command_internal`) -/

/-- `{"status": "success", "result": v}`. -/
def successResp (v : JsonVal) : JsonVal :=
  .obj [("status", .str "success"), ("result", v)]

/-- `{"status": "error", "message": m}`. -/
def errorResp (m : String) : JsonVal :=
  .obj [("status", .str "error"), ("message", .str m)]

/-- A handler from the external Handler Registry: receives the decoded
`params` object and the host state, returns either a result value or the
message of a raised exception, together with the (possibly mutated) host
state — a raising handler may already have mutated the host. -/
def Handler (σ : Type) : Type := JsonVal → σ → (Except String JsonVal) × σ

/-- The base handler methods of `BlenderMCPServer`, external to the
protocol core (their bodies manipulate the Blender scene). -/
structure BaseHandlers (σ : Type) : Type where
  get_scene_info : Handler σ
  create_object : Handler σ
  modify_object : Handler σ
  delete_object : Handler σ
  get_object_info : Handler σ
  execute_code : Handler σ
  set_material : Handler σ
  get_polyhaven_status : Handler σ

/-- The PolyHaven handler methods, added to the registry only when the
scene's `blendermcp_use_polyhaven` flag is set. -/
structure PolyHandlers (σ : Type) : Type where
  get_polyhaven_categories : Handler σ
  search_polyhaven_assets : Handler σ
  download_polyhaven_asset : Handler σ
  set_texture : Handler σ

/-- The `handlers` dict built afresh on every dispatch
(`_execute_command_internal`, lines 241–261): the base handlers, widened
by the PolyHaven handlers when the flag is set (`dict.update`: on a key
clash the PolyHaven entry would win, hence it is listed first for the
first-match lookup below; the key sets are in fact disjoint). -/
def handlersList (useph : Bool) (b : BaseHandlers σ) (p : PolyHandlers σ) :
    List (String × Handler σ) :=
  (if useph then
    [("get_polyhaven_categories", p.get_polyhaven_categories),
     ("search_polyhaven_assets", p.search_polyhaven_assets),
     ("download_polyhaven_asset", p.download_polyhaven_asset),
     ("set_texture", p.set_texture)]
  else []) ++
  [("get_scene_info", b.get_scene_info),
   ("create_object", b.create_object),
   ("modify_object", b.modify_object),
   ("delete_object", b.delete_object),
   ("get_object_info", b.get_object_info),
   ("execute_code", b.execute_code),
   ("set_material", b.set_material),
   ("get_polyhaven_status", b.get_polyhaven_status)]

/-- The key set of the registry for a given flag state. -/
def registeredKeys (useph : Bool) : List String :=
  (if useph then
    ["get_polyhaven_categories", "search_polyhaven_assets",
     "download_polyhaven_asset", "set_texture"]
  else []) ++
  ["get_scene_info", "create_object", "modify_object", "delete_object",
   "get_object_info", "execute_code", "set_material", "get_polyhaven_status"]

/-- Python `==` between a decoded JSON value and a string literal (only
equal strings compare equal). -/
def isStrEq (v : JsonVal) (t : String) : Bool :=
  match v with
  | .str s => s = t
  | _ => false

/-- `cmd_type in ["create_object", "modify_object", "delete_object"]`
(`execute_command` line 200). -/
def needsView3D (v : JsonVal) : Bool :=
  isStrEq v "create_object" || isStrEq v "modify_object"
    || isStrEq v "delete_object"

/-- `command.get(k, dflt)`: raises `AttributeError` when the decoded
command is not a dict. -/
def cmdGet (command : JsonVal) (k : String) (dflt : JsonVal) :
    Except String JsonVal :=
  match command with
  | .obj kvs => .ok (dGetD kvs k dflt)
  | v => .error ("'" ++ pyTypeName v ++ "' object has no attribute 'get'")

/-- `_execute_command_internal` (`addon.py` lines 220–281).  The `.error`
result is an exception escaping the method (possible only from the
un-guarded `get_polyhaven_status` special case before the registry is
consulted, from `command.get` on a non-dict, or from looking up an
unhashable command type); the `.ok` result is the returned response
dict.  A handler reached through the registry runs inside
`try/except`, so its exception is converted to an error response. -/
def _execute_command_internal (useph : Bool) (b : BaseHandlers σ)
    (p : PolyHandlers σ) (command : JsonVal) (s : σ) :
    (Except String JsonVal) × σ :=
  match cmdGet command "type" .null with
  | .error e => (.error e, s)
  | .ok cmdType =>
    match cmdGet command "params" (.obj []) with
    | .error e => (.error e, s)
    | .ok params =>
      if isStrEq cmdType "get_polyhaven_status" then
        -- line 236–238: direct call, outside any try/except,
        -- invoked with no keyword arguments
        match b.get_polyhaven_status (.obj []) s with
        | (.ok v, s') => (.ok (successResp v), s')
        | (.error e, s') => (.error e, s')
      else
        match cmdType with
        | .arr _ => (.error "unhashable type: 'list'", s)
        | .obj _ => (.error "unhashable type: 'dict'", s)
        | _ =>
          match (match cmdType with
                 | .str k => dictLookup (handlersList useph b p) k
                 | _ => none) with
          | some h =>
            (match h params s with
             | (.ok v, s') => (.ok (successResp v), s')
             | (.error e, s') => (.ok (errorResp e), s'))
          | none =>
            (.ok (errorResp ("Unknown command type: " ++ pyStr cmdType)), s)

/-- `execute_command` (`addon.py` lines 183–218): the dispatch entry
point called from the server step.  `areas` is the list of area types of
`bpy.context.screen.areas`; the three object commands first look up a
`VIEW_3D` area (`[...][0]` raises `IndexError("list index out of
range")` when the filter result is empty).  Every exception is caught
and converted to an error response, so the function is total. -/
def execute_command (useph : Bool) (b : BaseHandlers σ) (p : PolyHandlers σ)
    (areas : List String) (command : JsonVal) (s : σ) : JsonVal × σ :=
  let run : (Except String JsonVal) × σ :=
    match cmdGet command "type" .null with
    | .error e => (.error e, s)
    | .ok cmdType =>
      match cmdGet command "params" (.obj []) with
      | .error e => (.error e, s)
      | .ok _params =>
        if needsView3D cmdType then
          match areas.filter (fun a => a = "VIEW_3D") with
          | [] => (.error "list index out of range", s)
          | _ :: _ => _execute_command_internal useph b p command s
        else
          _execute_command_internal useph b p command s
  match run with
  | (.ok resp, s') => (resp, s')
  | (.error e, s') => (errorResp e, s')

/-! ## The polling server step (`addon.py`: `_process_server`) -/

/-- The mutable fields of `BlenderMCPServer` that the step reads and
writes: the `running` flag, whether the listening socket exists
(`self.socket`), whether a client socket exists (`self.client`), and the
byte buffer. -/
structure SrvState : Type where
  running : Bool
  socketUp : Bool
  client : Bool
  buffer : List Nat
deriving DecidableEq, Repr

/-- Outcome of the non-blocking `accept` attempt of one tick. -/
inductive AcceptEv : Type where
  | conn : AcceptEv        -- a connection was pending
  | noPending : AcceptEv   -- `BlockingIOError`: nothing waiting (normal)
  | acceptErr : AcceptEv   -- any other exception during accept
deriving DecidableEq, Repr

/-- Outcome of the non-blocking `recv` attempt of one tick.  `got bs
sendOk` delivers the received bytes (`recv` returning `b''`, i.e.
`bs = []`, signals the peer closed); `sendOk` is the outcome of the
`sendall` call in case one is attempted this tick. -/
inductive RecvEv : Type where
  | got (bs : List Nat) (sendOk : Bool) : RecvEv
  | blocked : RecvEv       -- `BlockingIOError`: no data available
  | recvErr : RecvEv       -- any other exception during recv
deriving DecidableEq, Repr

/-- The transport events of one scheduler tick. -/
structure TickEv : Type where
  acc : AcceptEv
  rcv : RecvEv
deriving DecidableEq, Repr

/-- Whether a client socket exists after the accept phase of a tick
(`_process_server` lines 117–127): an existing client is kept; otherwise
a non-blocking accept is attempted when the listening socket exists. -/
def acceptPhase (st : SrvState) (ev : TickEv) : Bool :=
  if ¬ st.client ∧ st.socketUp then
    match ev.acc with
    | .conn => true
    | _ => false
  else st.client

/-- One invocation of `_process_server` (lines 105–181).  `exec` is the
dispatch (`execute_command` with its host arguments fixed; it is total,
see above).  The second component is the payload of the `sendall` call
when one is attempted; the third is the value returned to the scheduler
(`none` cancels the timer, `some 100` re-invokes after 100 ms).

Faithful points: received bytes are appended to the buffer and the whole
buffer is passed to `json.loads(buffer.decode('utf-8'))`; on success the
buffer is cleared *before* the response is dispatched and sent, so a
failing `sendall` (caught at line 162) still leaves the buffer empty but
closes the client; on `json.JSONDecodeError` the buffer is retained; a
`UnicodeDecodeError` from `.decode('utf-8')` is *not* caught by the
`except json.JSONDecodeError` clause and falls to the generic handler at
line 162, which closes the client and clears the buffer. -/
def _process_server (exec : JsonVal → JsonVal) (st : SrvState) (ev : TickEv) :
    SrvState × Option JsonVal × Option Nat :=
  if ¬ st.running then (st, none, none)
  else
    let client1 := acceptPhase st ev
    if client1 then
      match ev.rcv with
      | .got bs sendOk =>
        if bs.isEmpty then
          -- `else:` branch of `if data:` — peer closed
          ({st with client := false, buffer := []}, none, some 100)
        else
          let buf2 := st.buffer ++ bs
          match pyLoads buf2 with
          | .ok cmd =>
            let resp := exec cmd
            if sendOk then
              ({st with client := client1, buffer := []}, some resp, some 100)
            else
              ({st with client := false, buffer := []}, some resp, some 100)
          | .jsonError =>
            ({st with client := client1, buffer := buf2}, none, some 100)
          | .decodeError =>
            ({st with client := false, buffer := []}, none, some 100)
      | .blocked => ({st with client := client1}, none, some 100)
      | .recvErr => ({st with client := false, buffer := []}, none, some 100)
    else
      ({st with client := client1}, none, some 100)

/-- Feed a list of reads to consecutive server ticks (the client stays
connected and delivers one chunk per tick; `sendall` succeeds), and
collect the responses sent. -/
def runChunks (exec : JsonVal → JsonVal) (st : SrvState) :
    List (List Nat) → SrvState × List JsonVal
  | [] => (st, [])
  | c :: rest =>
    let out := _process_server exec st ⟨.noPending, .got c true⟩
    let next := runChunks exec out.1 rest
    (next.1, out.2.1.toList ++ next.2)

/-- The server state while one client is connected and the buffer holds
`buf`. -/
def connectedSt (buf : List Nat) : SrvState :=
  { running := true, socketUp := true, client := true, buffer := buf }

/-! ## The client receive loop
(`blender_mcp_server.py`: `receive_full_response`) -/

/-- Outcome of one client-side `sock.recv(buffer_size)` call:
bytes delivered (`b''`, i.e. `[]`, means the peer closed), a
`socket.timeout`, or a `ConnectionError`-family exception carrying
`str(e)`. -/
inductive CRecv : Type where
  | chunk (bs : List Nat) : CRecv
  | timeout : CRecv
  | connErr (m : String) : CRecv

/-- Exception classes that `receive_full_response` can raise. -/
inductive RecvError : Type where
  | closedNoData : RecvError   -- "Connection closed before receiving any data"
  | incomplete : RecvError     -- "Incomplete JSON response received"
  | noData : RecvError         -- "No data received"
  | connError (m : String) : RecvError  -- re-raised ConnectionError family
  | decodeErr : RecvError      -- UnicodeDecodeError from `.decode('utf-8')`

/-- The `str()` of the exceptions above, as wrapped later by
`send_command`'s generic handler.  The text of a `UnicodeDecodeError` is
abstracted (no theorem below depends on it). -/
def recvErrMsg : RecvError → String
  | .closedNoData => "Connection closed before receiving any data"
  | .incomplete => "Incomplete JSON response received"
  | .noData => "No data received"
  | .connError m => m
  | .decodeErr => "invalid utf-8 in response"

/-- The fall-through of `receive_full_response` (lines 137–152), reached
when the loop exits by timeout or by a zero-length read after some data:
a final parse attempt on the joined chunks. -/
def finalizeRecv (acc : List Nat) : Except RecvError (List Nat) :=
  if acc.isEmpty then .error .noData
  else
    match pyLoads acc with
    | .ok _ => .ok acc
    | .jsonError => .error .incomplete
    | .decodeError => .error .decodeErr

/-- The chunked receive loop of `receive_full_response` (lines 94–152),
driven by a script of timed recv outcomes: each event carries the wall
time the `recv` call took (bounded by the 15-unit `sock.settimeout(15.0)`
per call).  Returns the loop's result and the total time spent.  An
exhausted script is read as an immediate timeout.

Per iteration (mirroring the source): a zero-length read with no
accumulated data raises `closedNoData`, otherwise breaks to the final
parse; received bytes are appended and the accumulator is re-parsed —
success returns the joined data, `json.JSONDecodeError` continues,
a `UnicodeDecodeError` escapes the loop (it is caught by none of the
`except` clauses around the parse attempt); `socket.timeout` breaks to
the final parse; a `ConnectionError`-family exception is re-raised. -/
def recvLoopT (acc : List Nat) : List (Nat × CRecv) →
    (Except RecvError (List Nat)) × Nat
  | [] => (finalizeRecv acc, 0)
  | (d, e) :: rest =>
    match e with
    | .chunk bs =>
      if bs.isEmpty then
        if acc.isEmpty then (.error .closedNoData, d)
        else (finalizeRecv acc, d)
      else
        let acc2 := acc ++ bs
        match pyLoads acc2 with
        | .ok _ => (.ok acc2, d)
        | .jsonError =>
          let next := recvLoopT acc2 rest
          (next.1, d + next.2)
        | .decodeError => (.error .decodeErr, d)
    | .timeout => (finalizeRecv acc, d)
    | .connErr m => (.error (.connError m), d)

/-- `receive_full_response(sock)`: run the loop on an empty accumulator.
-/
def receive_full_response (evs : List (Nat × CRecv)) :
    Except RecvError (List Nat) :=
  (recvLoopT [] evs).1

/-! ## The client connection manager
(`blender_mcp_server.py`: `send_command`) -/

/-- Outcome of the `sock.sendall` call inside `send_command`. -/
inductive SendOutcome : Type where
  | sent : SendOutcome                  -- sendall returned
  | timeoutT : SendOutcome              -- socket.timeout
  | connErrS (m : String) : SendOutcome -- ConnectionError family
  | otherErrS (m : String) : SendOutcome -- any other exception

/-- Exception classes that `send_command` can raise, with the inner
`str(e)` where the message is built from one. -/
inductive SendErr : Type where
  | notConnected : SendErr          -- ConnectionError("Not connected to Blender")
  | timeoutErr : SendErr
    -- "Timeout waiting for Blender response - try simplifying your request"
  | connLost (m : String) : SendErr -- "Connection to Blender lost: " ++ m
  | invalidJson : SendErr           -- "Invalid response from Blender: ..."
  | commError (m : String) : SendErr
    -- "Communication error with Blender: " ++ m

/-- The transport environment of one `send_command` call: whether a
`connect()` attempt (if made) would succeed, the outcome of `sendall`,
and the recv script consumed by `receive_full_response`. -/
structure Env : Type where
  connectOk : Bool
  sendOutcome : SendOutcome
  recvEvents : List (Nat × CRecv)

/-- `send_command` (lines 154–224), as a function of the cached-socket
state (`sock : Bool` models `self.sock is not None`) and the transport
environment.  Returns the call's outcome and the new socket state.

Faithful points (lines 204–224): `socket.timeout` and the
`ConnectionError` family and the generic `except Exception` all set
`self.sock = None` before re-raising a wrapped exception; the
`json.JSONDecodeError` branch (lines 214–219) wraps the error but does
*not* clear `self.sock`.  A well-formed response whose `status` is
`"error"` raises `Exception(message)` at line 200, which the generic
handler at line 220 catches: the socket is invalidated and the error is
re-wrapped as "Communication error with Blender: <message>". -/
def send_command (sock : Bool) (env : Env) : (Except SendErr JsonVal) × Bool :=
  if ¬ sock ∧ ¬ env.connectOk then (.error .notConnected, false)
  else
    -- the socket now exists (already cached, or connect() just set it)
    match env.sendOutcome with
    | .timeoutT => (.error .timeoutErr, false)
    | .connErrS m => (.error (.connLost ("Connection to Blender lost: " ++ m)), false)
    | .otherErrS m =>
      (.error (.commError ("Communication error with Blender: " ++ m)), false)
    | .sent =>
      match receive_full_response env.recvEvents with
      | .error (.connError m) =>
        (.error (.connLost ("Connection to Blender lost: " ++ m)), false)
      | .error re =>
        (.error (.commError ("Communication error with Blender: " ++ recvErrMsg re)),
         false)
      | .ok data =>
        match pyLoads data with
        | .jsonError => (.error .invalidJson, sock ∨ env.connectOk)
          -- line 214: the socket is NOT invalidated on this branch
        | .decodeError =>
          (.error (.commError "Communication error with Blender: utf-8 decode error"),
           false)
        | .ok response =>
          match response with
          | .obj kvs =>
            if isStrEq (dGet kvs "status") "error" then
              let msg := dGetD kvs "message" (.str "Unknown error from Blender")
              (.error (.commError ("Communication error with Blender: " ++ pyStr msg)),
               false)
            else
              (.ok (dGetD kvs "result" (.obj [])), true)
          | v =>
            (.error (.commError ("Communication error with Blender: '"
              ++ pyTypeName v ++ "' object has no attribute 'get'")), false)

/-! ## Helper lemmas -/

/-- A type string outside the registry's key set finds no handler. -/
theorem lookup_none_of_not_registered (useph : Bool) (b : BaseHandlers σ)
    (p : PolyHandlers σ) (t : String) (h : t ∉ registeredKeys useph) :
    dictLookup (handlersList useph b p) t = none := by
  cases useph <;>
    simp_all [handlersList, registeredKeys, dictLookup]

/-- A registered key is in the key set. -/
theorem mem_registered_of_lookup (useph : Bool) (b : BaseHandlers σ)
    (p : PolyHandlers σ) (t : String) (h : Handler σ)
    (hl : dictLookup (handlersList useph b p) t = some h) :
    t ∈ registeredKeys useph := by
  by_contra hc
  rw [lookup_none_of_not_registered useph b p t hc] at hl
  exact Option.noConfusion hl

/-! ## Theorems: command dispatch -/

/-- Claim C3: for every command whose type string does not name a
registered handler under the current feature-flag state, and for every
params mapping, dispatch returns exactly
`{"status": "error", "message": "Unknown command type: <type>"}`, leaves
the host state untouched, and never raises to its caller (the inner
dispatch returns the response as a value, not an exception). -/
theorem C3_unknown_command (useph : Bool) (b : BaseHandlers σ)
    (p : PolyHandlers σ) (areas : List String)
    (kvs : List (String × JsonVal)) (t : String) (s : σ)
    (ht : dGetD kvs "type" .null = .str t)
    (hreg : t ∉ registeredKeys useph) :
    execute_command useph b p areas (.obj kvs) s
      = (errorResp ("Unknown command type: " ++ t), s)
    ∧ _execute_command_internal useph b p (.obj kvs) s
      = (.ok (errorResp ("Unknown command type: " ++ t)), s) := by
  have hph : t ≠ "get_polyhaven_status" := by
    intro he; exact hreg (by cases useph <;> simp [registeredKeys, he])
  have hco : t ≠ "create_object" := by
    intro he; exact hreg (by cases useph <;> simp [registeredKeys, he])
  have hmo : t ≠ "modify_object" := by
    intro he; exact hreg (by cases useph <;> simp [registeredKeys, he])
  have hdo : t ≠ "delete_object" := by
    intro he; exact hreg (by cases useph <;> simp [registeredKeys, he])
  have hlook := lookup_none_of_not_registered useph b p t hreg
  have hint : _execute_command_internal useph b p (.obj kvs) s
      = (.ok (errorResp ("Unknown command type: " ++ t)), s) := by
    simp [_execute_command_internal, cmdGet, ht, isStrEq, hph, hlook, pyStr]
  refine ⟨?_, hint⟩
  simp [execute_command, cmdGet, ht, needsView3D, isStrEq, hco, hmo, hdo, hint]

/-- Witness for C3 at the spec's own example input:
`dispatch("nonexistent", {})`. -/
theorem C3_witness :
    execute_command false
      (σ := Nat)
      ⟨fun _ s => (.ok .null, s), fun _ s => (.ok .null, s),
       fun _ s => (.ok .null, s), fun _ s => (.ok .null, s),
       fun _ s => (.ok .null, s), fun _ s => (.ok .null, s),
       fun _ s => (.ok .null, s), fun _ s => (.ok .null, s)⟩
      ⟨fun _ s => (.ok .null, s), fun _ s => (.ok .null, s),
       fun _ s => (.ok .null, s), fun _ s => (.ok .null, s)⟩
      ["VIEW_3D"]
      (.obj [("type", .str "nonexistent"), ("params", .obj [])]) 0
      = (errorResp "Unknown command type: nonexistent", 0) :=
  (C3_unknown_command false _ _ ["VIEW_3D"]
    [("type", .str "nonexistent"), ("params", .obj [])]
    "nonexistent" 0 rfl (by decide)).1

/-- Claim C4: a handler reached through the registry runs inside the
dispatcher's `try/except`: a raised exception with message `m` yields
`{"status":"error","message":m}` and a returned value `v` yields
`{"status":"success","result":v}`; in neither case does an exception
propagate out of dispatch (the outer `Except` is `.ok`).  The host state
after dispatch is exactly the state the handler produced.  (The type
`"get_polyhaven_status"` is dispatched by the earlier special case at
line 236 and never reaches this registry branch.) -/
theorem C4_handler_outcomes (useph : Bool) (b : BaseHandlers σ)
    (p : PolyHandlers σ) (t : String) (h : Handler σ) (ps : JsonVal)
    (kvs : List (String × JsonVal)) (s : σ)
    (hlook : dictLookup (handlersList useph b p) t = some h)
    (hph : t ≠ "get_polyhaven_status")
    (ht : dGetD kvs "type" .null = .str t)
    (hp : dGetD kvs "params" (.obj []) = ps) :
    (∀ m s', h ps s = (.error m, s') →
      _execute_command_internal useph b p (.obj kvs) s
        = (.ok (errorResp m), s'))
    ∧ (∀ v s', h ps s = (.ok v, s') →
      _execute_command_internal useph b p (.obj kvs) s
        = (.ok (successResp v), s')) := by
  constructor
  · intro m s' hh
    simp [_execute_command_internal, cmdGet, ht, hp, isStrEq, hph, hlook, hh]
  · intro v s' hh
    simp [_execute_command_internal, cmdGet, ht, hp, isStrEq, hph, hlook, hh]

/-- Witness for C4: a handler raising `"boom"` yields
`{"status":"error","message":"boom"}`, a handler returning `7` yields
`{"status":"success","result":7}`; the handler's state mutation (here
`s + 1`) is preserved. -/
theorem C4_witness :
    _execute_command_internal false
      (σ := Nat)
      ⟨fun _ s => (.ok .null, s), fun _ s => (.ok .null, s),
       fun _ s => (.ok .null, s), fun _ s => (.ok .null, s),
       fun _ s => (.ok .null, s), fun _ s => (.error "boom", s + 1),
       fun _ s => (.ok (.num 7), s + 1), fun _ s => (.ok .null, s)⟩
      ⟨fun _ s => (.ok .null, s), fun _ s => (.ok .null, s),
       fun _ s => (.ok .null, s), fun _ s => (.ok .null, s)⟩
      (.obj [("type", .str "execute_code"), ("params", .obj [])]) 0
      = (.ok (errorResp "boom"), 1)
    ∧ _execute_command_internal false
      (σ := Nat)
      ⟨fun _ s => (.ok .null, s), fun _ s => (.ok .null, s),
       fun _ s => (.ok .null, s), fun _ s => (.ok .null, s),
       fun _ s => (.ok .null, s), fun _ s => (.error "boom", s + 1),
       fun _ s => (.ok (.num 7), s + 1), fun _ s => (.ok .null, s)⟩
      ⟨fun _ s => (.ok .null, s), fun _ s => (.ok .null, s),
       fun _ s => (.ok .null, s), fun _ s => (.ok .null, s)⟩
      (.obj [("type", .str "set_material"), ("params", .obj [])]) 0
      = (.ok (successResp (.num 7)), 1) :=
  ⟨(C4_handler_outcomes false _ _ "execute_code" _ (.obj [])
      [("type", .str "execute_code"), ("params", .obj [])] 0 rfl
      (by decide) rfl rfl).1 "boom" 1 rfl,
   (C4_handler_outcomes false _ _ "set_material" _ (.obj [])
      [("type", .str "set_material"), ("params", .obj [])] 0 rfl
      (by decide) rfl rfl).2 (.num 7) 1 rfl⟩

/-- Claim C10 (implicit): for the command types `create_object`,
`modify_object` and `delete_object`, when the host screen has no
`VIEW_3D` area the lookup `[...][0]` raises `IndexError` before the
handler runs, and `execute_command` catches it and returns an error
response.  The result is independent of the registered handlers (they
are universally quantified, hence never invoked) and the host state is
returned unchanged; no exception reaches the caller. -/
theorem C10_no_view3d (useph : Bool) (b : BaseHandlers σ)
    (p : PolyHandlers σ) (areas : List String)
    (kvs : List (String × JsonVal)) (t : String) (s : σ)
    (ht : dGetD kvs "type" .null = .str t)
    (h3 : t = "create_object" ∨ t = "modify_object" ∨ t = "delete_object")
    (ha : "VIEW_3D" ∉ areas) :
    execute_command useph b p areas (.obj kvs) s
      = (errorResp "list index out of range", s) := by
  have hn : needsView3D (.str t) = true := by
    rcases h3 with h | h | h <;> simp [needsView3D, isStrEq, h]
  have hf : areas.filter (fun a => a = "VIEW_3D") = [] := by
    rw [List.filter_eq_nil_iff]
    intro a hma
    simp only [decide_eq_true_eq]
    intro he
    exact ha (he ▸ hma)
  simp [execute_command, cmdGet, ht, hn, hf]

/-- Witness for C10: `create_object` on a screen whose areas are all
non-3D yields the `IndexError` message as an error response, with the
host state (here `41`) unchanged. -/
theorem C10_witness :
    execute_command false
      (σ := Nat)
      ⟨fun _ s => (.ok .null, s), fun _ s => (.ok (.num 99), s + 1),
       fun _ s => (.ok .null, s), fun _ s => (.ok .null, s),
       fun _ s => (.ok .null, s), fun _ s => (.ok .null, s),
       fun _ s => (.ok .null, s), fun _ s => (.ok .null, s)⟩
      ⟨fun _ s => (.ok .null, s), fun _ s => (.ok .null, s),
       fun _ s => (.ok .null, s), fun _ s => (.ok .null, s)⟩
      ["PROPERTIES", "OUTLINER"]
      (.obj [("type", .str "create_object"),
             ("params", .obj [("type", .str "CUBE")])]) 41
      = (errorResp "list index out of range", 41) :=
  C10_no_view3d false _ _ ["PROPERTIES", "OUTLINER"]
    [("type", .str "create_object"), ("params", .obj [("type", .str "CUBE")])]
    "create_object" 41 rfl (Or.inl rfl) (by decide)

/-! ## Theorems: client receive loop -/

/-- Claim C6: in the client's receive loop, a zero-length read with
nothing accumulated raises the "connection closed before receiving any
data" error; a zero-length read (or a timeout) with at least one byte
accumulated stops reading and attempts a final parse of the accumulated
bytes — raising the "incomplete JSON response" error exactly when that
parse fails with `json.JSONDecodeError`, and returning the data when it
succeeds.  (Every buffer the loop accumulates decodes as UTF-8 — bytes
are only kept after a parse attempt that failed with
`json.JSONDecodeError` — so the two cases below are exhaustive for
reachable accumulators.) -/
theorem C6_zero_read_and_finalize :
    (∀ (d : Nat) (rest : List (Nat × CRecv)),
      receive_full_response ((d, .chunk []) :: rest) = .error .closedNoData)
    ∧ (∀ (d : Nat) (rest : List (Nat × CRecv)) (acc : List Nat),
        acc ≠ [] → pyLoads acc = .jsonError →
        (recvLoopT acc ((d, .chunk []) :: rest)).1 = .error .incomplete
        ∧ (recvLoopT acc ((d, .timeout) :: rest)).1 = .error .incomplete)
    ∧ (∀ (d : Nat) (rest : List (Nat × CRecv)) (acc : List Nat) (v : JsonVal),
        acc ≠ [] → pyLoads acc = .ok v →
        (recvLoopT acc ((d, .chunk []) :: rest)).1 = .ok acc
        ∧ (recvLoopT acc ((d, .timeout) :: rest)).1 = .ok acc) := by
  refine ⟨fun d rest => ?_, fun d rest acc hne hl => ?_, fun d rest acc v hne hl => ?_⟩
  · simp [receive_full_response, recvLoopT]
  · have he : acc.isEmpty = false := by simpa [List.isEmpty_iff] using hne
    constructor <;> simp [recvLoopT, finalizeRecv, he, hl]
  · have he : acc.isEmpty = false := by simpa [List.isEmpty_iff] using hne
    constructor <;> simp [recvLoopT, finalizeRecv, he, hl]

/-- Witness for C6: a closed connection after the two bytes `{"` raises
"incomplete JSON response"; after the seven bytes of `{"a":1}` the
accumulated data is returned. -/
theorem C6_witness :
    (recvLoopT [123, 34] [(1, .chunk [])]).1 = .error .incomplete
    ∧ (recvLoopT [123, 34, 97, 34, 58, 49, 125] [(1, .chunk [])]).1
      = .ok [123, 34, 97, 34, 58, 49, 125] :=
  ⟨(C6_zero_read_and_finalize.2.1 1 [] [123, 34] (by decide) rfl).1,
   (C6_zero_read_and_finalize.2.2 1 [] [123, 34, 97, 34, 58, 49, 125]
      (.obj [("a", .num 1)]) (by decide) rfl).1⟩

/-- Counterexample to claim C7 as stated ("the total time the loop
spends receiving one response never exceeds the default 15-unit
timeout"): `sock.settimeout(15.0)` bounds each *individual* `recv` call,
not the loop.  A peer that delivers `[` after 10 units and `]` after 10
more units keeps every read within the 15-unit limit, yet the loop
returns successfully after 20 units. -/
theorem C7_counterexample :
    (∀ p ∈ [((10 : Nat), CRecv.chunk [91]), (10, CRecv.chunk [93])], p.1 ≤ 15)
    ∧ (recvLoopT [] [(10, .chunk [91]), (10, .chunk [93])]).1 = .ok [91, 93]
    ∧ (recvLoopT [] [(10, .chunk [91]), (10, .chunk [93])]).2 = 20
    ∧ ¬ (recvLoopT [] [(10, .chunk [91]), (10, .chunk [93])]).2 ≤ 15 :=
  ⟨by decide, rfl, by decide, by decide⟩

/-- Claim C7, amended: the 15-unit timeout bounds each individual read,
so a receive that consumes `N` reads takes at most `15 · N`; there is no
overall 15-unit bound on the loop. -/
theorem C7_per_read_bound (acc : List Nat) (evs : List (Nat × CRecv))
    (hb : ∀ p ∈ evs, p.1 ≤ 15) :
    (recvLoopT acc evs).2 ≤ 15 * evs.length := by
  induction evs generalizing acc with
  | nil => simp [recvLoopT]
  | cons e rest ih =>
    obtain ⟨d, ev⟩ := e
    have hd : d ≤ 15 := hb (d, ev) (List.mem_cons_self _ _)
    have hrest : ∀ p ∈ rest, p.1 ≤ 15 :=
      fun p hp => hb p (List.mem_cons_of_mem _ hp)
    cases ev with
    | chunk bs =>
      by_cases hbs : bs.isEmpty
      · by_cases hacc : acc.isEmpty <;>
          · simp [recvLoopT, hbs, hacc, List.length_cons]; omega
      · have hih := ih (acc ++ bs) hrest
        cases hl : pyLoads (acc ++ bs) with
        | ok v => simp [recvLoopT, hbs, hl, List.length_cons]; omega
        | jsonError =>
          simp [recvLoopT, hbs, hl, List.length_cons]
          omega
        | decodeError => simp [recvLoopT, hbs, hl, List.length_cons]; omega
    | timeout => simp [recvLoopT, List.length_cons]; omega
    | connErr m => simp [recvLoopT, List.length_cons]; omega

/-- Witness for the amended C7 at the counterexample's script: two reads
of 10 units each stay within `15 · 2 = 30`. -/
theorem C7_witness :
    (recvLoopT [] [(10, .chunk [91]), (10, .chunk [93])]).2
      ≤ 15 * [((10 : Nat), CRecv.chunk [91]), (10, CRecv.chunk [93])].length :=
  C7_per_read_bound [] [(10, .chunk [91]), (10, .chunk [93])] (by decide)

/-! ## Theorems: client connection manager -/

/-- Claim C8: `send_command` connection-fault behaviour.
1. Disconnected and the connect attempt fails: the distinguished
   `ConnectionError("Not connected to Blender")` is raised before
   anything is sent (the outcome is independent of the rest of the
   environment).
2./3. A `ConnectionError`-family failure (resp. a timeout) of `sendall`
   propagates immediately with the socket invalidated.
4. A `ConnectionError`-family failure during the receive propagates with
   the socket invalidated.
5. The failing call performs no retry; the *next* call, finding the
   socket invalidated, transparently reconnects and succeeds once the
   peer answers with a well-formed non-error response. -/
theorem C8_connection_faults :
    (∀ env : Env, env.connectOk = false →
      send_command false env = (.error .notConnected, false))
    ∧ (∀ (sock : Bool) (env : Env) (m : String),
        (sock = true ∨ env.connectOk = true) → env.sendOutcome = .connErrS m →
        send_command sock env
          = (.error (.connLost ("Connection to Blender lost: " ++ m)), false))
    ∧ (∀ (sock : Bool) (env : Env),
        (sock = true ∨ env.connectOk = true) → env.sendOutcome = .timeoutT →
        send_command sock env = (.error .timeoutErr, false))
    ∧ (∀ (sock : Bool) (env : Env) (m : String),
        (sock = true ∨ env.connectOk = true) → env.sendOutcome = .sent →
        receive_full_response env.recvEvents = .error (.connError m) →
        send_command sock env
          = (.error (.connLost ("Connection to Blender lost: " ++ m)), false))
    ∧ (∀ (env : Env) (kvs : List (String × JsonVal)) (data : List Nat),
        env.connectOk = true → env.sendOutcome = .sent →
        receive_full_response env.recvEvents = .ok data →
        pyLoads data = .ok (.obj kvs) →
        isStrEq (dGet kvs "status") "error" = false →
        send_command false env = (.ok (dGetD kvs "result" (.obj [])), true)) := by
  refine ⟨fun env hc => ?_, fun sock env m hs ho => ?_, fun sock env hs ho => ?_,
    fun sock env m hs ho hr => ?_, fun env kvs data hc ho hr hl hst => ?_⟩
  · simp [send_command, hc]
  · rcases hs with h | h <;> simp [send_command, h, ho]
  · rcases hs with h | h <;> simp [send_command, h, ho]
  · rcases hs with h | h <;> simp [send_command, h, ho, hr]
  · simp [send_command, hc, ho, hr, hl, hst]

/-- Witness for C8: a failed connect raises the distinguished error; a
send-phase connection reset invalidates the socket; the next call, with
the socket invalidated but the peer reachable, reconnects and returns
the result of `{"status":"success","result":{"n":5}}`. -/
theorem C8_witness :
    send_command false
      { connectOk := false, sendOutcome := .sent, recvEvents := [] }
      = (.error .notConnected, false)
    ∧ send_command true
      { connectOk := false, sendOutcome := .connErrS "Connection reset by peer",
        recvEvents := [] }
      = (.error (.connLost "Connection to Blender lost: Connection reset by peer"),
         false)
    ∧ send_command false
      { connectOk := true, sendOutcome := .sent,
        recvEvents := [(1, .chunk [123, 34, 115, 116, 97, 116, 117, 115, 34, 58,
          34, 115, 117, 99, 99, 101, 115, 115, 34, 44, 34, 114, 101, 115, 117,
          108, 116, 34, 58, 123, 34, 110, 34, 58, 53, 125, 125])] }
      = (.ok (.obj [("n", .num 5)]), true) :=
  ⟨C8_connection_faults.1
      { connectOk := false, sendOutcome := .sent, recvEvents := [] } rfl,
   C8_connection_faults.2.1 true
      { connectOk := false, sendOutcome := .connErrS "Connection reset by peer",
        recvEvents := [] }
      "Connection reset by peer" (Or.inl rfl) rfl,
   C8_connection_faults.2.2.2.2
      { connectOk := true, sendOutcome := .sent,
        recvEvents := [(1, .chunk [123, 34, 115, 116, 97, 116, 117, 115, 34, 58,
          34, 115, 117, 99, 99, 101, 115, 115, 34, 44, 34, 114, 101, 115, 117,
          108, 116, 34, 58, 123, 34, 110, 34, 58, 53, 125, 125])] }
      [("status", .str "success"), ("result", .obj [("n", .num 5)])]
      [123, 34, 115, 116, 97, 116, 117, 115, 34, 58, 34, 115, 117, 99, 99, 101,
       115, 115, 34, 44, 34, 114, 101, 115, 117, 108, 116, 34, 58, 123, 34, 110,
       34, 58, 53, 125, 125]
      rfl rfl rfl rfl rfl⟩

/-- Claim C9 (implicit): a well-formed response with `status = "error"`
makes line 200 raise the server-supplied message, which the generic
`except Exception` handler at line 220 intercepts: the socket is
invalidated (exactly as for a transport fault) and the caller receives
the wrapped "Communication error with Blender: <message>" error, not the
server's message alone. -/
theorem C9_error_status_wrapped (sock : Bool) (env : Env)
    (kvs : List (String × JsonVal)) (data : List Nat) (m : String)
    (hs : sock = true ∨ env.connectOk = true)
    (ho : env.sendOutcome = .sent)
    (hr : receive_full_response env.recvEvents = .ok data)
    (hl : pyLoads data = .ok (.obj kvs))
    (hst : dGet kvs "status" = .str "error")
    (hm : dGetD kvs "message" (.str "Unknown error from Blender") = .str m) :
    send_command sock env
      = (.error (.commError ("Communication error with Blender: " ++ m)), false) := by
  rcases hs with h | h <;>
    simp [send_command, h, ho, hr, hl, hst, hm, isStrEq, pyStr]

/-- Witness for C9: the response `{"status":"error","message":"boom"}`
surfaces as "Communication error with Blender: boom" with the socket
invalidated. -/
theorem C9_witness :
    send_command true
      { connectOk := false, sendOutcome := .sent,
        recvEvents := [(1, .chunk [123, 34, 115, 116, 97, 116, 117, 115, 34, 58,
          34, 101, 114, 114, 111, 114, 34, 44, 34, 109, 101, 115, 115, 97, 103,
          101, 34, 58, 34, 98, 111, 111, 109, 34, 125])] }
      = (.error (.commError "Communication error with Blender: boom"), false) :=
  C9_error_status_wrapped true
    { connectOk := false, sendOutcome := .sent,
      recvEvents := [(1, .chunk [123, 34, 115, 116, 97, 116, 117, 115, 34, 58,
        34, 101, 114, 114, 111, 114, 34, 44, 34, 109, 101, 115, 115, 97, 103,
        101, 34, 58, 34, 98, 111, 111, 109, 34, 125])] }
    [("status", .str "error"), ("message", .str "boom")]
    [123, 34, 115, 116, 97, 116, 117, 115, 34, 58, 34, 101, 114, 114, 111, 114,
     34, 44, 34, 109, 101, 115, 115, 97, 103, 101, 34, 58, 34, 98, 111, 111,
     109, 34, 125]
    "boom" (Or.inl rfl) rfl rfl rfl rfl rfl

/-! ## Theorems: server step -/

/-- A tick that ends with no client can only start with no client (an
established client is only dropped later, in the receive phase). -/
theorem client_false_of_acceptPhase_false (st : SrvState) (ev : TickEv)
    (h : acceptPhase st ev = false) : st.client = false := by
  cases hc : st.client
  · rfl
  · simp [acceptPhase, hc] at h

/-- Claim C2: in every execution of the server step, a response is
written back (the step performs a `sendall`) exactly when the server is
running, a client socket is present after the accept phase, and the
bytes received in this tick make the accumulated buffer parse as one
complete JSON document (the code's notion of a complete request).  In
particular, a transport error during the receive resets the connection
— socket closed, buffer cleared — with no response sent for the
partially received data. -/
theorem C2_response_iff_parse (exec : JsonVal → JsonVal) (st : SrvState)
    (ev : TickEv) :
    ((_process_server exec st ev).2.1 ≠ none ↔
      (st.running = true ∧ acceptPhase st ev = true ∧
        ∃ bs ok v, ev.rcv = .got bs ok ∧ bs ≠ []
          ∧ pyLoads (st.buffer ++ bs) = .ok v))
    ∧ (st.running = true → acceptPhase st ev = true → ev.rcv = .recvErr →
        _process_server exec st ev
          = ({st with client := false, buffer := []}, none, some 100)) := by
  obtain ⟨acc, rcv⟩ := ev
  by_cases hr : st.running
  · by_cases ha : acceptPhase st ⟨acc, rcv⟩
    · cases rcv with
      | got bs ok =>
        constructor
        · by_cases hbs : bs = []
          · subst hbs
            simp [_process_server, hr, ha]
          · have hbE : bs.isEmpty = false := by
              simpa [List.isEmpty_iff] using hbs
            cases hl : pyLoads (st.buffer ++ bs) with
            | ok v =>
              cases ok <;> simp [_process_server, hr, ha, hbE, hl, hbs]
            | jsonError => simp [_process_server, hr, ha, hbE, hl]
            | decodeError => simp [_process_server, hr, ha, hbE, hl]
        · intro _ _ h
          exact RecvEv.noConfusion h
      | blocked =>
        constructor
        · simp [_process_server, hr, ha]
        · intro _ _ h
          exact RecvEv.noConfusion h
      | recvErr =>
        constructor
        · simp [_process_server, hr, ha]
        · intro _ _ _
          simp [_process_server, hr, ha]
    · constructor
      · simp [_process_server, hr, ha]
      · exact fun _ hcontra _ => absurd hcontra ha
  · constructor
    · simp [_process_server, hr]
    · intro hcontra
      exact absurd hcontra hr

/-- Claim C5: the server step is a total function of its state and
transport events (no exception escapes to the scheduler), and each fault
is handled as claimed: a zero-length receive closes the client socket
and clears the buffer, returning to the no-client state; an exception
during receive does the same; a failing `sendall` after a parsed
request likewise ends with the socket closed and the buffer empty; an
exception during accept leaves the server in the no-client state with
the step returning normally.  The step preserves the invariant that the
buffer is empty whenever no client is connected, and always returns the
100 ms re-invoke delay while running (and `none`, cancelling the timer,
once stopped). -/
theorem C5_step_safety (exec : JsonVal → JsonVal) (st : SrvState)
    (ev : TickEv) :
    (st.running = true → acceptPhase st ev = true → ∀ ok,
      ev.rcv = .got [] ok →
      _process_server exec st ev
        = ({st with client := false, buffer := []}, none, some 100))
    ∧ (st.running = true → acceptPhase st ev = true → ev.rcv = .recvErr →
      _process_server exec st ev
        = ({st with client := false, buffer := []}, none, some 100))
    ∧ (st.running = true → acceptPhase st ev = true → ∀ bs v,
      ev.rcv = .got bs false → bs ≠ [] → pyLoads (st.buffer ++ bs) = .ok v →
      _process_server exec st ev
        = ({st with client := false, buffer := []}, some (exec v), some 100))
    ∧ (st.running = true → st.client = false → ev.acc = .acceptErr →
      _process_server exec st ev = (st, none, some 100))
    ∧ ((st.client = false → st.buffer = []) →
      ((_process_server exec st ev).1.client = false →
        (_process_server exec st ev).1.buffer = []))
    ∧ (st.running = true → (_process_server exec st ev).2.2 = some 100)
    ∧ (st.running = false → _process_server exec st ev = (st, none, none)) := by
  obtain ⟨acc, rcv⟩ := ev
  refine ⟨?_, ?_, ?_, ?_, ?_, ?_, ?_⟩
  · intro hr ha ok hev
    cases hev
    simp [_process_server, hr, ha]
  · intro hr ha hev
    cases rcv with
    | got bs ok => exact RecvEv.noConfusion hev
    | blocked => exact RecvEv.noConfusion hev
    | recvErr => simp [_process_server, hr, ha]
  · intro hr ha bs v hev hbs hl
    cases hev
    have hbE : bs.isEmpty = false := by simpa [List.isEmpty_iff] using hbs
    simp [_process_server, hr, ha, hbE, hl]
  · intro hr hc hev
    cases hev
    obtain ⟨r, so, cl, bu⟩ := st
    simp only at hr hc
    subst hr
    subst hc
    cases rcv <;> cases so <;> simp [_process_server, acceptPhase]
  · intro hinv
    by_cases hr : st.running
    · by_cases ha : acceptPhase st ⟨acc, rcv⟩
      · cases rcv with
        | got bs ok =>
          by_cases hbs : bs.isEmpty
          · simp [_process_server, hr, ha, hbs]
          · cases hl : pyLoads (st.buffer ++ bs) with
            | ok v => cases ok <;> simp [_process_server, hr, ha, hbs, hl]
            | jsonError => simp [_process_server, hr, ha, hbs, hl]
            | decodeError => simp [_process_server, hr, ha, hbs, hl]
        | blocked => simp [_process_server, hr, ha]
        | recvErr => simp [_process_server, hr, ha]
      · have hc := client_false_of_acceptPhase_false st ⟨acc, rcv⟩
          (by simpa using ha)
        simp [_process_server, hr, ha, hinv hc]
    · simp [_process_server, hr]
      exact hinv
  · intro hr
    by_cases ha : acceptPhase st ⟨acc, rcv⟩
    · cases rcv with
      | got bs ok =>
        by_cases hbs : bs.isEmpty
        · simp [_process_server, hr, ha, hbs]
        · cases hl : pyLoads (st.buffer ++ bs) with
          | ok v => cases ok <;> simp [_process_server, hr, ha, hbs, hl]
          | jsonError => simp [_process_server, hr, ha, hbs, hl]
          | decodeError => simp [_process_server, hr, ha, hbs, hl]
      | blocked => simp [_process_server, hr, ha]
      | recvErr => simp [_process_server, hr, ha]
    · simp [_process_server, hr, ha]
  · intro hr
    simp [_process_server, hr]

/-- Witness for C2: a transport error while one byte is buffered resets
the connection — no response, socket closed, buffer cleared. -/
theorem C2_witness :
    _process_server id (connectedSt [123]) ⟨.noPending, .recvErr⟩
      = ({ running := true, socketUp := true, client := false, buffer := [] },
         none, some 100) :=
  (C2_response_iff_parse id (connectedSt [123]) ⟨.noPending, .recvErr⟩).2
    rfl rfl rfl

/-- Witness for C5: a zero-length read drops the client and clears the
buffer; a stopped server's step returns `none` to cancel the timer. -/
theorem C5_witness :
    _process_server id (connectedSt [123]) ⟨.noPending, .got [] true⟩
      = ({ running := true, socketUp := true, client := false, buffer := [] },
         none, some 100)
    ∧ _process_server id
        { running := false, socketUp := true, client := true, buffer := [7] }
        ⟨.noPending, .blocked⟩
      = ({ running := false, socketUp := true, client := true, buffer := [7] },
         none, none) :=
  ⟨(C5_step_safety id (connectedSt [123]) ⟨.noPending, .got [] true⟩).1
      rfl rfl true rfl,
   (C5_step_safety id
      { running := false, socketUp := true, client := true, buffer := [7] }
      ⟨.noPending, .blocked⟩).2.2.2.2.2.2 rfl⟩

/-! ## Theorems: frame assembly (split invariance) -/

/-- Feeding a connected server a run of reads whose accumulated
boundary prefixes all stay incomplete (`json.JSONDecodeError`) and whose
full concatenation parses, yields exactly one dispatched response and an
empty buffer. -/
theorem runChunks_parse_ok (exec : JsonVal → JsonVal) (v : JsonVal) :
    ∀ (chunks : List (List Nat)) (buf : List Nat),
      chunks ≠ [] →
      (∀ c ∈ chunks, c ≠ []) →
      pyLoads (buf ++ chunks.flatten) = .ok v →
      (∀ k, k + 1 < chunks.length →
        pyLoads (buf ++ (chunks.take (k + 1)).flatten) = .jsonError) →
      runChunks exec (connectedSt buf) chunks = (connectedSt [], [exec v])
  | [], _, hne, _, _, _ => absurd rfl hne
  | c :: rest, buf, _, hcs, hfull, hpre => by
    have hc : c ≠ [] := hcs c (List.mem_cons_self c rest)
    have hcE : c.isEmpty = false := by simpa [List.isEmpty_iff] using hc
    cases rest with
    | nil =>
      have hful : pyLoads (buf ++ c) = .ok v := by
        simpa using hfull
      simp [runChunks, _process_server, connectedSt, acceptPhase, hcE, hful]
    | cons c2 rest2 =>
      have hj : pyLoads (buf ++ c) = .jsonError := by
        have := hpre 0 (by simp [List.length_cons])
        simpa using this
      have hstep : runChunks exec (connectedSt buf) (c :: c2 :: rest2)
          = runChunks exec (connectedSt (buf ++ c)) (c2 :: rest2) := by
        simp [runChunks, _process_server, connectedSt, acceptPhase, hcE, hj]
      rw [hstep]
      exact runChunks_parse_ok exec v (c2 :: rest2) (buf ++ c)
        (by simp)
        (fun x hx => hcs x (List.mem_cons_of_mem _ hx))
        (by simpa [List.append_assoc] using hfull)
        (fun k hk => by
          have := hpre (k + 1)
            (by simp [List.length_cons] at hk ⊢; omega)
          simpa [List.take_succ_cons, List.append_assoc] using this)

/-- Counterexample to claim C1 as stated: split-invariance fails for a
request whose UTF-8 encoding is cut inside a multi-byte character.  The
bytes of `{"t":"é"}` delivered in one read are decoded and answered; the
same bytes split after the lead byte `0xC3` make
`buffer.decode('utf-8')` raise `UnicodeDecodeError`, which the
`except json.JSONDecodeError` clause does not catch: the generic handler
closes the client and clears the buffer (a non-parsing read after which
the buffer is *not* retained), and no object is ever decoded. -/
theorem C1_counterexample :
    pyLoads [123, 34, 116, 34, 58, 34, 195, 169, 34, 125]
      = .ok (.obj [("t", .str "é")])
    ∧ pyLoads [123, 34, 116, 34, 58, 34, 195] = .decodeError
    ∧ runChunks id (connectedSt [])
        [[123, 34, 116, 34, 58, 34, 195, 169, 34, 125]]
      = (connectedSt [], [.obj [("t", .str "é")]])
    ∧ (runChunks id (connectedSt [])
        [[123, 34, 116, 34, 58, 34, 195], [169, 34, 125]]).2 = []
    ∧ (runChunks id (connectedSt [])
        [[123, 34, 116, 34, 58, 34, 195], [169, 34, 125]]).1.client = false
    ∧ runChunks id (connectedSt [])
        [[123, 34, 116, 34, 58, 34, 195], [169, 34, 125]]
      ≠ runChunks id (connectedSt [])
        [[123, 34, 116, 34, 58, 34, 195, 169, 34, 125]] :=
  ⟨rfl, rfl, rfl, rfl, rfl,
   fun h => absurd (congrArg (fun r => r.2.length) h) (by decide)⟩

/-- Claim C1, amended: split-invariance holds for every partition of the
request bytes into non-empty reads such that each proper accumulated
prefix at a read boundary fails the parse with `json.JSONDecodeError`
(it decodes as UTF-8 but is not yet complete JSON) — in particular for
any partition of the ASCII encoding of a single JSON object, as produced
by `json.dumps`.  The split delivery and the single-read delivery then
produce identical results: the same single decoded object dispatched,
the same final state with an empty buffer.  Moreover, per read: a read
after which the buffer parses clears the buffer, and a read after which
the parse fails with `json.JSONDecodeError` retains the buffer, equal to
the previous buffer plus the appended bytes, sending nothing.  (The
amendment excludes exactly the case the counterexample exhibits: a read
boundary inside a multi-byte UTF-8 character, where the buffer is
dropped instead of retained.) -/
theorem C1_split_invariance (exec : JsonVal → JsonVal)
    (chunks : List (List Nat)) (v : JsonVal)
    (hne : chunks ≠ [])
    (hcs : ∀ c ∈ chunks, c ≠ [])
    (hfull : pyLoads chunks.flatten = .ok v)
    (hpre : ∀ k, k + 1 < chunks.length →
      pyLoads ((chunks.take (k + 1)).flatten) = .jsonError) :
    runChunks exec (connectedSt []) chunks
      = runChunks exec (connectedSt []) [chunks.flatten]
    ∧ runChunks exec (connectedSt []) chunks = (connectedSt [], [exec v])
    ∧ (∀ (buf bs : List Nat) (w : JsonVal) (ok : Bool),
        pyLoads (buf ++ bs) = .ok w → bs ≠ [] →
        (_process_server exec (connectedSt buf)
          ⟨.noPending, .got bs ok⟩).1.buffer = [])
    ∧ (∀ (buf bs : List Nat) (ok : Bool),
        pyLoads (buf ++ bs) = .jsonError → bs ≠ [] →
        _process_server exec (connectedSt buf) ⟨.noPending, .got bs ok⟩
          = (connectedSt (buf ++ bs), none, some 100)) := by
  have hjoin : chunks.flatten ≠ [] := by
    intro h
    have h0 : pyLoads ([] : List Nat) = .jsonError := rfl
    rw [h, h0] at hfull
    exact LoadResult.noConfusion hfull
  have hsplit : runChunks exec (connectedSt []) chunks
      = (connectedSt [], [exec v]) :=
    runChunks_parse_ok exec v chunks [] hne hcs (by simpa using hfull)
      (fun k hk => by simpa using hpre k hk)
  have hsingle : runChunks exec (connectedSt []) [chunks.flatten]
      = (connectedSt [], [exec v]) :=
    runChunks_parse_ok exec v [chunks.flatten] []
      (by simp)
      (by intro x hx; simp at hx; subst hx; exact hjoin)
      (by simpa using hfull)
      (fun k hk => absurd hk (by simp))
  refine ⟨hsplit.trans hsingle.symm, hsplit, ?_, ?_⟩
  · intro buf bs w ok hl hbs
    have hbE : bs.isEmpty = false := by simpa [List.isEmpty_iff] using hbs
    cases ok <;> simp [_process_server, connectedSt, acceptPhase, hbE, hl]
  · intro buf bs ok hl hbs
    have hbE : bs.isEmpty = false := by simpa [List.isEmpty_iff] using hbs
    simp [_process_server, connectedSt, acceptPhase, hbE, hl]

/-- Witness for the amended C1: the bytes of `{"a":1}` split into the
reads `{"a` and `":1}` yield the same single response and the same final
state as one read of the whole message. -/
theorem C1_witness :
    runChunks id (connectedSt []) [[123, 34, 97], [34, 58, 49, 125]]
      = runChunks id (connectedSt []) [[123, 34, 97, 34, 58, 49, 125]]
    ∧ runChunks id (connectedSt []) [[123, 34, 97], [34, 58, 49, 125]]
      = (connectedSt [], [.obj [("a", .num 1)]]) :=
  have h := C1_split_invariance id [[123, 34, 97], [34, 58, 49, 125]]
    (.obj [("a", .num 1)])
    (by simp)
    (by decide)
    rfl
    (fun k hk => by
      have hk0 : k = 0 := by simp [List.length_cons] at hk; omega
      subst hk0
      rfl)
  ⟨h.1, h.2.1⟩

end BlenderMCP
